import Mathlib

/-!
Shallow embedding of the webhook client module of the go-zendesk repository
(`src/zendesk/webhook.go`), together with models of its external
collaborators (the generic HTTP transport, the option-to-query-string
encoder, the generic page descriptor, and the Go standard library JSON and
time facilities), faithful to the Go semantics the source relies on.
-/

set_option autoImplicit false

/-- A JSON document, as produced by parsing a response body or by the Go
JSON encoder (`encoding/json`).  Numbers are modelled as integers; none of
the webhook fields is numeric, so numeric representation is irrelevant
here and `num` only serves as a non-string, non-object value that makes
decoding into a typed field fail. -/
inductive Json where
  | null
  | bool (b : Bool)
  | num (n : Int)
  | str (s : String)
  | arr (elems : List Json)
  | obj (fields : List (String × Json))

/-- Whether a JSON value is `null`.  A Go `interface` holding no value
(`nil` interface) corresponds to `Json.null` in this model; that is the
notion of emptiness `encoding/json` uses for `omitempty` on an
`interface` field. -/
def Json.isNull : Json → Bool
  | .null => true
  | _ => false

/-- Field lookup in a decoded JSON object, as `encoding/json` does when
unmarshalling an object into a struct: each key of the object is matched
against the field tags.  Objects produced by the encoder in this model
have pairwise distinct keys, so taking the first occurrence is faithful. -/
def getField : List (String × Json) → String → Option Json
  | [], _ => none
  | (n, v) :: rest, k => if n = k then some v else getField rest k

/-- Whether the JSON value is an object carrying the given key. -/
def hasField (j : Json) (k : String) : Bool :=
  match j with
  | .obj fs => (getField fs k).isSome
  | _ => false

/-- Model of the Go standard library `time.Time` as this module uses it:
`encoding/json` marshals a time value to its RFC3339 string rendering and
parses it back, so a time value is represented here by that rendering.
Note that `time.Time` is a struct type, and the Go `omitempty` tag option
treats only `false`, `0`, nil pointers and interfaces, and empty arrays,
slices, maps and strings as empty — never a struct — so a `time.Time`
field tagged `omitempty` is emitted unconditionally. -/
structure GoTime where
  rfc3339 : String

/-- The zero `time.Time`, whose RFC3339 rendering Go produces when a
zero time value is marshalled. -/
def zeroGoTime : GoTime := ⟨"0001-01-01T00:00:00Z"⟩

/-- `WebhookAuthentication` from `src/zendesk/webhook.go`.  The Go field
`Type` is spelled `type` here (`Type` is reserved in Lean).  `Data` has Go
type `interface` and is modelled as a JSON value, with `Json.null`
standing for the nil interface. -/
structure WebhookAuthentication where
  type : String
  Data : Json
  AddPosition : String

/-- `WebhookSigningSecret` from `src/zendesk/webhook.go`. -/
structure WebhookSigningSecret where
  Algorithm : String
  Secret : String

/-- `Webhook` from `src/zendesk/webhook.go`.  Pointer fields become
`Option`; the `interface` field `ExternalSource` is a JSON value with
`Json.null` for the nil interface; the slice field `Subscriptions` is a
list, with `[]` for the nil slice (Go omits a slice under `omitempty`
exactly when its length is zero, so nil and empty coincide on the wire). -/
structure Webhook where
  Authentication : Option WebhookAuthentication
  CreatedAt : GoTime
  CreatedBy : String
  Description : String
  Endpoint : String
  ExternalSource : Json
  HTTPMethod : String
  ID : String
  Name : String
  RequestFormat : String
  SigningSecret : Option WebhookSigningSecret
  Status : String
  Subscriptions : List String
  UpdatedAt : GoTime
  UpdatedBy : String

/-- The zero value of `Webhook`, as a freshly declared Go variable holds. -/
def zeroWebhook : Webhook :=
  { Authentication := none
    CreatedAt := zeroGoTime
    CreatedBy := ""
    Description := ""
    Endpoint := ""
    ExternalSource := .null
    HTTPMethod := ""
    ID := ""
    Name := ""
    RequestFormat := ""
    SigningSecret := none
    Status := ""
    Subscriptions := []
    UpdatedAt := zeroGoTime
    UpdatedBy := "" }

/-- JSON encoding of `WebhookAuthentication`: all three fields are tagged
without `omitempty`, so all are always emitted. -/
def marshalAuthentication (a : WebhookAuthentication) : Json :=
  .obj [("type", .str a.type), ("data", a.Data), ("add_position", .str a.AddPosition)]

/-- JSON encoding of `WebhookSigningSecret`. -/
def marshalSigningSecret (s : WebhookSigningSecret) : Json :=
  .obj [("algorithm", .str s.Algorithm), ("secret", .str s.Secret)]

/-- Encoding of a string field tagged `omitempty`: omitted when empty. -/
def omitStr (k s : String) : List (String × Json) :=
  if s = "" then [] else [(k, .str s)]

/-- Encoding of a pointer field tagged `omitempty`: omitted when nil. -/
def omitOpt (k : String) (o : Option Json) : List (String × Json) :=
  match o with
  | none => []
  | some j => [(k, j)]

/-- Encoding of an `interface` field tagged `omitempty`: omitted when the
interface is nil (modelled as `Json.null`). -/
def omitIface (k : String) (j : Json) : List (String × Json) :=
  if j.isNull then [] else [(k, j)]

/-- Encoding of a string-slice field tagged `omitempty`: omitted when the
slice has length zero. -/
def omitList (k : String) (xs : List String) : List (String × Json) :=
  if xs.isEmpty then [] else [(k, .arr (xs.map .str))]

/-- The field list `encoding/json` produces for a `Webhook`, in struct
declaration order.  Fields tagged `omitempty` are omitted when empty,
except `CreatedAt` and `UpdatedAt`: these have struct type `time.Time`,
which Go never considers empty, so they are emitted unconditionally even
though their tags carry `omitempty`. -/
def marshalWebhookFields (w : Webhook) : List (String × Json) :=
  omitOpt "authentication" (w.Authentication.map marshalAuthentication)
  ++ [("created_at", .str w.CreatedAt.rfc3339)]
  ++ omitStr "created_by" w.CreatedBy
  ++ omitStr "description" w.Description
  ++ [("endpoint", .str w.Endpoint)]
  ++ omitIface "external_source" w.ExternalSource
  ++ [("http_method", .str w.HTTPMethod)]
  ++ omitStr "id" w.ID
  ++ [("name", .str w.Name)]
  ++ [("request_format", .str w.RequestFormat)]
  ++ omitOpt "signing_secret" (w.SigningSecret.map marshalSigningSecret)
  ++ [("status", .str w.Status)]
  ++ omitList "subscriptions" w.Subscriptions
  ++ [("updated_at", .str w.UpdatedAt.rfc3339)]
  ++ omitStr "updated_by" w.UpdatedBy

/-- JSON encoding of a `Webhook` value, per the struct tags of
`src/zendesk/webhook.go` and the `encoding/json` marshalling rules. -/
def marshalWebhook (w : Webhook) : Json :=
  .obj (marshalWebhookFields w)

/-- Decoding a looked-up object entry into a Go string field: an absent
key or a JSON `null` leaves the zero value; a non-string value is a type
error. -/
def unmarshalStringField : Option Json → Except String String
  | none => .ok ""
  | some .null => .ok ""
  | some (.str s) => .ok s
  | some _ => .error "cannot unmarshal into field of type string"

/-- Decoding a looked-up object entry into a `time.Time` field: absent or
`null` leaves the zero time; a string is parsed (represented directly);
anything else is a type error. -/
def unmarshalTimeField : Option Json → Except String GoTime
  | none => .ok zeroGoTime
  | some .null => .ok zeroGoTime
  | some (.str s) => .ok ⟨s⟩
  | some _ => .error "cannot unmarshal into field of type time.Time"

/-- Decoding a looked-up object entry into an `interface` field: absent
or `null` leaves the nil interface; any JSON value is stored as is. -/
def unmarshalIfaceField (o : Option Json) : Json :=
  o.getD .null

/-- Decoding a looked-up object entry into a `*WebhookAuthentication`
field: absent or `null` leaves the nil pointer. -/
def unmarshalAuthField : Option Json → Except String (Option WebhookAuthentication)
  | none => .ok none
  | some .null => .ok none
  | some (.obj fs) => do
      let t ← unmarshalStringField (getField fs "type")
      let ap ← unmarshalStringField (getField fs "add_position")
      .ok (some ⟨t, unmarshalIfaceField (getField fs "data"), ap⟩)
  | some _ => .error "cannot unmarshal into field of type WebhookAuthentication"

/-- Decoding a looked-up object entry into a `*WebhookSigningSecret`
field: absent or `null` leaves the nil pointer. -/
def unmarshalSecretField : Option Json → Except String (Option WebhookSigningSecret)
  | none => .ok none
  | some .null => .ok none
  | some (.obj fs) => do
      let alg ← unmarshalStringField (getField fs "algorithm")
      let sec ← unmarshalStringField (getField fs "secret")
      .ok (some ⟨alg, sec⟩)
  | some _ => .error "cannot unmarshal into field of type WebhookSigningSecret"

/-- Decoding one element of a `subscriptions` array into a string slot. -/
def unmarshalStringElem : Json → Except String String
  | .null => .ok ""
  | .str s => .ok s
  | _ => .error "cannot unmarshal into element of type string"

/-- Decoding a looked-up object entry into a `[]string` field: absent or
`null` leaves the nil slice. -/
def unmarshalSubsField : Option Json → Except String (List String)
  | none => .ok []
  | some .null => .ok []
  | some (.arr xs) => xs.mapM unmarshalStringElem
  | some _ => .error "cannot unmarshal into field of type []string"

/-- Decoding a JSON value into a `Webhook` struct value, as
`json.Unmarshal` does: `null` is a no-op leaving the zero value, an
object is matched field by field (absent keys leave zero values, unknown
keys are ignored), anything else is a type error. -/
def unmarshalWebhook : Json → Except String Webhook
  | .null => .ok zeroWebhook
  | .obj fs => do
      let auth ← unmarshalAuthField (getField fs "authentication")
      let createdAt ← unmarshalTimeField (getField fs "created_at")
      let createdBy ← unmarshalStringField (getField fs "created_by")
      let descr ← unmarshalStringField (getField fs "description")
      let endpoint ← unmarshalStringField (getField fs "endpoint")
      let httpMethod ← unmarshalStringField (getField fs "http_method")
      let id ← unmarshalStringField (getField fs "id")
      let name ← unmarshalStringField (getField fs "name")
      let requestFormat ← unmarshalStringField (getField fs "request_format")
      let secret ← unmarshalSecretField (getField fs "signing_secret")
      let status ← unmarshalStringField (getField fs "status")
      let subs ← unmarshalSubsField (getField fs "subscriptions")
      let updatedAt ← unmarshalTimeField (getField fs "updated_at")
      let updatedBy ← unmarshalStringField (getField fs "updated_by")
      .ok { Authentication := auth
            CreatedAt := createdAt
            CreatedBy := createdBy
            Description := descr
            Endpoint := endpoint
            ExternalSource := unmarshalIfaceField (getField fs "external_source")
            HTTPMethod := httpMethod
            ID := id
            Name := name
            RequestFormat := requestFormat
            SigningSecret := secret
            Status := status
            Subscriptions := subs
            UpdatedAt := updatedAt
            UpdatedBy := updatedBy }
  | _ => .error "cannot unmarshal into value of type Webhook"

/-- Errors surfaced by the client, per the two error kinds of the design:
a transport error (network failure, non-success HTTP status, cancellation)
carried opaquely, or a decode error from `json.Unmarshal`. -/
inductive ZendeskError where
  | transport (e : String)
  | decode (e : String)

/-- Modelled from the spec: the generic authenticated HTTP transport the
client (`Client` in the wider repository, not under `src/`) delegates to —
verb-specific request execution returning raw response bytes or an error.
A returned body is represented by its parse: `some j` for bytes that are
valid JSON `j`, `none` for bytes that are not valid JSON.  `put` returns a
body as well (discarded by `UpdateWebhook`); `delete` returns no body. -/
structure Client where
  get : String → Except String (Option Json)
  post : String → Json → Except String (Option Json)
  put : String → Json → Except String (Option Json)
  delete : String → Except String Unit

/-- Modelled from the spec: the generic page-cursor mechanism
(`PageOptions`, not under `src/`) embedded in `WebhookListOptions`.  The
spec enumerates the list query parameters exhaustively as the six webhook
options below, so this embedded part contributes no parameters. -/
structure PageOptions where

/-- `WebhookListOptions` from `src/zendesk/webhook.go`.  The Go field
`Sort` is spelled `sort` here (`Sort` is reserved in Lean). -/
structure WebhookListOptions where
  pageOptions : PageOptions
  FilterNameContains : String
  FilterStatus : String
  PageAfter : String
  PageBefore : String
  PageSize : String
  sort : String

/-- The zero value `WebhookListOptions` that Go builds with a composite
literal when the caller passes a nil options pointer. -/
def emptyListOptions : WebhookListOptions :=
  ⟨⟨⟩, "", "", "", "", "", ""⟩

/-- One query parameter from a string option field tagged `omitempty`:
present exactly when the field is non-empty. -/
def omitParam (k v : String) : List (String × String) :=
  if v = "" then [] else [(k, v)]

/-- Modelled from the spec: the generic option-to-query-string encoder
(`addOptions` with the go-querystring tags, not under `src/`).  For each
tagged option field it emits `name=value` when the field is non-empty and
nothing when it is empty, under the documented parameter names.  URL
percent-escaping is out of scope per the spec. -/
def encodeListOptions (o : WebhookListOptions) : List (String × String) :=
  omitParam "filter[name_contains]" o.FilterNameContains
  ++ omitParam "filter[status]" o.FilterStatus
  ++ omitParam "page[after]" o.PageAfter
  ++ omitParam "page[before]" o.PageBefore
  ++ omitParam "page[size]" o.PageSize
  ++ omitParam "sort" o.sort

/-- Modelled from the spec: `addOptions` renders the path with the encoded
query string appended, leaving the bare path when no parameter is set. -/
def addOptions (path : String) (o : WebhookListOptions) : String :=
  match encodeListOptions o with
  | [] => path
  | ps => path ++ "?" ++ String.intercalate "&" (ps.map fun p => p.1 ++ "=" ++ p.2)

/-- Modelled from the spec: the generic paginated-list-page descriptor
(`Page`, not under `src/`) shared across the wider API; cursor-paginated
list responses carry a `meta` object with a has-more flag and the
after/before cursors. -/
structure Page where
  hasMore : Bool
  afterCursor : String
  beforeCursor : String

/-- The zero value of `Page`. -/
def zeroPage : Page := ⟨false, "", ""⟩

/-- Decoding a looked-up object entry into a Go bool field. -/
def unmarshalBoolField : Option Json → Except String Bool
  | none => .ok false
  | some .null => .ok false
  | some (.bool b) => .ok b
  | some _ => .error "cannot unmarshal into field of type bool"

/-- Decoding the pagination part of a list response body (the embedded
`Page` of the anonymous response struct) from the `meta` object. -/
def unmarshalPage (fs : List (String × Json)) : Except String Page :=
  match getField fs "meta" with
  | none => .ok zeroPage
  | some .null => .ok zeroPage
  | some (.obj ms) => do
      let hm ← unmarshalBoolField (getField ms "has_more")
      let ac ← unmarshalStringField (getField ms "after_cursor")
      let bc ← unmarshalStringField (getField ms "before_cursor")
      .ok ⟨hm, ac, bc⟩
  | some _ => .error "cannot unmarshal into field of type Meta"

/-- Decoding a looked-up object entry into the `[]Webhook` field of the
list response struct: absent or `null` leaves the nil slice. -/
def unmarshalWebhookSlice : Option Json → Except String (List Webhook)
  | none => .ok []
  | some .null => .ok []
  | some (.arr xs) => xs.mapM unmarshalWebhook
  | some _ => .error "cannot unmarshal into field of type []Webhook"

/-- Decoding the whole list response body into the anonymous struct of
`ListWebhooks` (a `webhooks` array plus the embedded `Page`). -/
def unmarshalListBody : Json → Except String (List Webhook × Page)
  | .null => .ok ([], zeroPage)
  | .obj fs => do
      let ws ← unmarshalWebhookSlice (getField fs "webhooks")
      let page ← unmarshalPage fs
      .ok (ws, page)
  | _ => .error "cannot unmarshal into value of type list response"

/-- Decoding a response body into the anonymous struct holding a single
`webhook` key with a `*Webhook`: a missing key or a `null` leaves the nil
pointer, and the whole body may be `null` (a no-op on the struct). -/
def unmarshalWebhookResult : Json → Except String (Option Webhook)
  | .null => .ok none
  | .obj fs =>
      match getField fs "webhook" with
      | none => .ok none
      | some .null => .ok none
      | some j => (unmarshalWebhook j).map some
  | _ => .error "cannot unmarshal into value of type webhook result"

/-- Decoding a response body into the anonymous struct holding a single
`signing_secret` key with a `*WebhookSigningSecret`. -/
def unmarshalSecretResult : Json → Except String (Option WebhookSigningSecret)
  | .null => .ok none
  | .obj fs => unmarshalSecretField (getField fs "signing_secret")
  | _ => .error "cannot unmarshal into value of type signing secret result"

/-- The error `json.Unmarshal` reports on bytes that are not valid JSON. -/
def jsonSyntaxError : String := "invalid character in response body"

/-- The URL `ListWebhooks` requests: `addOptions` applied to `/webhooks`
and the options, after the nil options pointer is replaced by a fresh
zero value (`tmp := opts; if tmp == nil ...`). -/
def listWebhooksURL (opts : Option WebhookListOptions) : String :=
  addOptions "/webhooks" (opts.getD emptyListOptions)

/-- `ListWebhooks` from `src/zendesk/webhook.go`: builds the URL from the
options (defaulting a nil pointer to the zero options), issues a GET, and
decodes the body into the webhooks slice and the page. -/
def ListWebhooks (z : Client) (opts : Option WebhookListOptions) :
    Except ZendeskError (List Webhook × Page) :=
  match z.get (listWebhooksURL opts) with
  | .error e => .error (.transport e)
  | .ok none => .error (.decode jsonSyntaxError)
  | .ok (some j) =>
      match unmarshalListBody j with
      | .error e => .error (.decode e)
      | .ok (ws, page) => .ok (ws, page)

/-- The request body `CreateWebhook` and `UpdateWebhook` send: the given
webhook wrapped under a single `webhook` key (the anonymous struct with
`data.Webhook = hook`). -/
def wrapWebhook (hook : Webhook) : Json :=
  .obj [("webhook", marshalWebhook hook)]

/-- `CreateWebhook` from `src/zendesk/webhook.go`: POSTs the wrapped
webhook to `/webhooks` and decodes the `webhook` key of the response. -/
def CreateWebhook (z : Client) (hook : Webhook) :
    Except ZendeskError (Option Webhook) :=
  match z.post "/webhooks" (wrapWebhook hook) with
  | .error e => .error (.transport e)
  | .ok none => .error (.decode jsonSyntaxError)
  | .ok (some j) =>
      match unmarshalWebhookResult j with
      | .error e => .error (.decode e)
      | .ok ow => .ok ow

/-- `GetWebhook` from `src/zendesk/webhook.go`. -/
def GetWebhook (z : Client) (webhookID : String) :
    Except ZendeskError (Option Webhook) :=
  match z.get ("/webhooks/" ++ webhookID) with
  | .error e => .error (.transport e)
  | .ok none => .error (.decode jsonSyntaxError)
  | .ok (some j) =>
      match unmarshalWebhookResult j with
      | .error e => .error (.decode e)
      | .ok ow => .ok ow

/-- `UpdateWebhook` from `src/zendesk/webhook.go`: PUTs the wrapped
webhook to the webhook URL; the response body is discarded and only the
transport outcome decides the returned error. -/
def UpdateWebhook (z : Client) (webhookID : String) (hook : Webhook) :
    Except ZendeskError Unit :=
  match z.put ("/webhooks/" ++ webhookID) (wrapWebhook hook) with
  | .error e => .error (.transport e)
  | .ok _ => .ok ()

/-- `DeleteWebhook` from `src/zendesk/webhook.go`. -/
def DeleteWebhook (z : Client) (webhookID : String) : Except ZendeskError Unit :=
  match z.delete ("/webhooks/" ++ webhookID) with
  | .error e => .error (.transport e)
  | .ok _ => .ok ()

/-- `GetWebhookSigningSecret` from `src/zendesk/webhook.go`. -/
def GetWebhookSigningSecret (z : Client) (webhookID : String) :
    Except ZendeskError (Option WebhookSigningSecret) :=
  match z.get ("/webhooks/" ++ webhookID ++ "/signing_secret") with
  | .error e => .error (.transport e)
  | .ok none => .error (.decode jsonSyntaxError)
  | .ok (some j) =>
      match unmarshalSecretResult j with
      | .error e => .error (.decode e)
      | .ok os => .ok os

/-- State-passing translation of `CreateWebhook` that makes the value of
the caller-owned webhook explicit alongside the result: the Go body
stores the pointer into `data.Webhook` and every subsequent step
(marshalling, the POST, decoding) only reads through it, so each branch
returns the pointed-to value it was given. -/
def CreateWebhookSt (z : Client) (hook : Webhook) :
    Except ZendeskError (Option Webhook) × Webhook :=
  match z.post "/webhooks" (wrapWebhook hook) with
  | .error e => (.error (.transport e), hook)
  | .ok none => (.error (.decode jsonSyntaxError), hook)
  | .ok (some j) =>
      match unmarshalWebhookResult j with
      | .error e => (.error (.decode e), hook)
      | .ok ow => (.ok ow, hook)

/-- State-passing translation of `UpdateWebhook`, as for
`CreateWebhookSt`: the PUT reads the wrapped webhook and nothing writes
through the caller-owned pointer. -/
def UpdateWebhookSt (z : Client) (webhookID : String) (hook : Webhook) :
    Except ZendeskError Unit × Webhook :=
  match z.put ("/webhooks/" ++ webhookID) (wrapWebhook hook) with
  | .error e => (.error (.transport e), hook)
  | .ok _ => (.ok (), hook)

/-! ### Concrete transports used to exercise the operations -/

/-- A transport whose every GET returns the signing-secret body of the
specification example. -/
def exampleSecretClient : Client where
  get := fun _ => .ok (some (.obj [("signing_secret",
    .obj [("algorithm", .str "sha256"), ("secret", .str "abc123")])]))
  post := fun _ _ => .error "unsupported"
  put := fun _ _ => .error "unsupported"
  delete := fun _ => .error "unsupported"

/-- A transport whose every response body is the empty JSON object. -/
def emptyObjectClient : Client where
  get := fun _ => .ok (some (.obj []))
  post := fun _ _ => .ok (some (.obj []))
  put := fun _ _ => .ok (some (.obj []))
  delete := fun _ => .ok ()

/-- A transport answering every POST with a server-assigned record under
the `webhook` key. -/
def createReplyClient : Client where
  get := fun _ => .error "unsupported"
  post := fun _ _ => .ok (some (.obj [("webhook", .obj [("id", .str "1")])]))
  put := fun _ _ => .error "unsupported"
  delete := fun _ => .error "unsupported"

/-- The webhook the `createReplyClient` response body decodes to. -/
def createdReplyWebhook : Webhook := { zeroWebhook with ID := "1" }

/-! ### Lookup lemmas for the encoded webhook object -/

theorem getField_append (l1 l2 : List (String × Json)) (k : String) :
    getField (l1 ++ l2) k = (getField l1 k).or (getField l2 k) := by
  induction l1 with
  | nil => simp [getField]
  | cons p rest ih =>
      cases p with
      | mk n v =>
          simp only [List.cons_append, getField]
          split
          · simp
          · simpa using ih

theorem getField_single (k : String) (v : Json) (k' : String) :
    getField [(k, v)] k' = if k = k' then some v else none := by
  simp [getField]

theorem getField_cons (n : String) (v : Json) (rest : List (String × Json)) (k : String) :
    getField ((n, v) :: rest) k = if n = k then some v else getField rest k := rfl

theorem getField_omitStr (k s k' : String) :
    getField (omitStr k s) k' =
      if k = k' then (if s = "" then none else some (.str s)) else none := by
  by_cases h : s = "" <;> simp [omitStr, h, getField]

theorem getField_omitOpt (k : String) (o : Option Json) (k' : String) :
    getField (omitOpt k o) k' = if k = k' then o else none := by
  cases o <;> simp [omitOpt, getField]

theorem getField_omitIface (k : String) (j : Json) (k' : String) :
    getField (omitIface k j) k' =
      if k = k' then (if j.isNull then none else some j) else none := by
  by_cases h : j.isNull <;> simp [omitIface, h, getField]

theorem getField_omitList (k : String) (xs : List String) (k' : String) :
    getField (omitList k xs) k' =
      if k = k' then (if xs.isEmpty then none else some (.arr (xs.map .str))) else none := by
  by_cases h : xs.isEmpty <;> simp [omitList, h, getField]

theorem lookup_marshal_authentication (w : Webhook) :
    getField (marshalWebhookFields w) "authentication" =
      w.Authentication.map marshalAuthentication := by
  simp [marshalWebhookFields, getField_append, getField_single, getField_cons,
    getField_omitStr, getField_omitOpt, getField_omitIface, getField_omitList]

theorem lookup_marshal_created_at (w : Webhook) :
    getField (marshalWebhookFields w) "created_at" = some (.str w.CreatedAt.rfc3339) := by
  simp [marshalWebhookFields, getField_append, getField_single, getField_cons,
    getField_omitStr, getField_omitOpt, getField_omitIface, getField_omitList]

theorem lookup_marshal_created_by (w : Webhook) :
    getField (marshalWebhookFields w) "created_by" =
      if w.CreatedBy = "" then none else some (.str w.CreatedBy) := by
  simp [marshalWebhookFields, getField_append, getField_single, getField_cons,
    getField_omitStr, getField_omitOpt, getField_omitIface, getField_omitList]

theorem lookup_marshal_description (w : Webhook) :
    getField (marshalWebhookFields w) "description" =
      if w.Description = "" then none else some (.str w.Description) := by
  simp [marshalWebhookFields, getField_append, getField_single, getField_cons,
    getField_omitStr, getField_omitOpt, getField_omitIface, getField_omitList]

theorem lookup_marshal_endpoint (w : Webhook) :
    getField (marshalWebhookFields w) "endpoint" = some (.str w.Endpoint) := by
  simp [marshalWebhookFields, getField_append, getField_single, getField_cons,
    getField_omitStr, getField_omitOpt, getField_omitIface, getField_omitList]

theorem lookup_marshal_external_source (w : Webhook) :
    getField (marshalWebhookFields w) "external_source" =
      if w.ExternalSource.isNull then none else some w.ExternalSource := by
  simp [marshalWebhookFields, getField_append, getField_single, getField_cons,
    getField_omitStr, getField_omitOpt, getField_omitIface, getField_omitList]

theorem lookup_marshal_http_method (w : Webhook) :
    getField (marshalWebhookFields w) "http_method" = some (.str w.HTTPMethod) := by
  simp [marshalWebhookFields, getField_append, getField_single, getField_cons,
    getField_omitStr, getField_omitOpt, getField_omitIface, getField_omitList]

theorem lookup_marshal_id (w : Webhook) :
    getField (marshalWebhookFields w) "id" =
      if w.ID = "" then none else some (.str w.ID) := by
  simp [marshalWebhookFields, getField_append, getField_single, getField_cons,
    getField_omitStr, getField_omitOpt, getField_omitIface, getField_omitList]

theorem lookup_marshal_name (w : Webhook) :
    getField (marshalWebhookFields w) "name" = some (.str w.Name) := by
  simp [marshalWebhookFields, getField_append, getField_single, getField_cons,
    getField_omitStr, getField_omitOpt, getField_omitIface, getField_omitList]

theorem lookup_marshal_request_format (w : Webhook) :
    getField (marshalWebhookFields w) "request_format" = some (.str w.RequestFormat) := by
  simp [marshalWebhookFields, getField_append, getField_single, getField_cons,
    getField_omitStr, getField_omitOpt, getField_omitIface, getField_omitList]

theorem lookup_marshal_signing_secret (w : Webhook) :
    getField (marshalWebhookFields w) "signing_secret" =
      w.SigningSecret.map marshalSigningSecret := by
  simp [marshalWebhookFields, getField_append, getField_single, getField_cons,
    getField_omitStr, getField_omitOpt, getField_omitIface, getField_omitList]

theorem lookup_marshal_status (w : Webhook) :
    getField (marshalWebhookFields w) "status" = some (.str w.Status) := by
  simp [marshalWebhookFields, getField_append, getField_single, getField_cons,
    getField_omitStr, getField_omitOpt, getField_omitIface, getField_omitList]

theorem lookup_marshal_subscriptions (w : Webhook) :
    getField (marshalWebhookFields w) "subscriptions" =
      if w.Subscriptions.isEmpty then none
      else some (.arr (w.Subscriptions.map .str)) := by
  simp [marshalWebhookFields, getField_append, getField_single, getField_cons,
    getField_omitStr, getField_omitOpt, getField_omitIface, getField_omitList]

theorem lookup_marshal_updated_at (w : Webhook) :
    getField (marshalWebhookFields w) "updated_at" = some (.str w.UpdatedAt.rfc3339) := by
  simp [marshalWebhookFields, getField_append, getField_single, getField_cons,
    getField_omitStr, getField_omitOpt, getField_omitIface, getField_omitList]

theorem lookup_marshal_updated_by (w : Webhook) :
    getField (marshalWebhookFields w) "updated_by" =
      if w.UpdatedBy = "" then none else some (.str w.UpdatedBy) := by
  simp [marshalWebhookFields, getField_append, getField_single, getField_cons,
    getField_omitStr, getField_omitOpt, getField_omitIface, getField_omitList]

/-! ### Evaluation of the field decoders on encoder output -/

theorem unmarshalStringField_omit (s : String) :
    unmarshalStringField (if s = "" then none else some (.str s)) = .ok s := by
  by_cases h : s = "" <;> simp [h, unmarshalStringField]

theorem unmarshalIfaceField_omit (j : Json) :
    unmarshalIfaceField (if j.isNull then none else some j) = j := by
  by_cases h : j.isNull
  · cases j <;> simp_all [Json.isNull, unmarshalIfaceField, Option.getD]
  · simp [h, unmarshalIfaceField]

theorem unmarshalAuthField_map (o : Option WebhookAuthentication) :
    unmarshalAuthField (o.map marshalAuthentication) = .ok o := by
  cases o with
  | none => rfl
  | some a => rfl

theorem unmarshalSecretField_map (o : Option WebhookSigningSecret) :
    unmarshalSecretField (o.map marshalSigningSecret) = .ok o := by
  cases o with
  | none => rfl
  | some s => rfl

theorem mapM_unmarshalStringElem (xs : List String) :
    (xs.map Json.str).mapM unmarshalStringElem = .ok xs := by
  induction xs with
  | nil => rfl
  | cons a l ih =>
      rw [List.map_cons, List.mapM_cons, ih]
      rfl

theorem unmarshalSubsField_omit (xs : List String) :
    unmarshalSubsField (if xs.isEmpty then none
      else some (.arr (xs.map .str))) = .ok xs := by
  by_cases h : xs.isEmpty
  · rw [List.isEmpty_iff] at h
    simp [h, unmarshalSubsField]
  · rw [if_neg h]
    simp only [unmarshalSubsField]
    exact mapM_unmarshalStringElem xs

theorem unmarshalStringField_str (s : String) :
    unmarshalStringField (some (.str s)) = .ok s := rfl

theorem unmarshalTimeField_str (t : GoTime) :
    unmarshalTimeField (some (.str t.rfc3339)) = .ok t := rfl

theorem except_bind_ok {α β : Type} (a : α) (f : α → Except String β) :
    (Except.ok a : Except String α) >>= f = f a := rfl

theorem mem_omitParam (k v k0 v0 : String) :
    (k, v) ∈ omitParam k0 v0 ↔ k = k0 ∧ v = v0 ∧ v0 ≠ "" := by
  by_cases h : v0 = "" <;> simp [omitParam, h]

theorem isSome_ite (c : Prop) [Decidable c] (v : Json) :
    ((if c then none else some v).isSome = true) ↔ ¬ c := by
  by_cases h : c <;> simp [h]

/-! ### The claims -/

/-- Claim C1, as frozen, is false on the code: it says the `created_at`
and `updated_at` fields are omitted when empty, but both have struct type
`time.Time`, on which the Go `omitempty` option has no effect, so the
zero webhook is encoded with both keys present. -/
theorem C1_counterexample :
    zeroWebhook.CreatedAt = zeroGoTime ∧ zeroWebhook.UpdatedAt = zeroGoTime ∧
    hasField (marshalWebhook zeroWebhook) "created_at" = true ∧
    hasField (marshalWebhook zeroWebhook) "updated_at" = true :=
  ⟨rfl, rfl, rfl, rfl⟩

/-- Claim C1 (amended): for every Webhook value, JSON encoding omits each
of the fields `authentication`, `created_by`, `description`,
`external_source`, `id`, `signing_secret`, `subscriptions` and
`updated_by` exactly when that field is empty/absent, while `endpoint`,
`http_method`, `name`, `request_format` and `status` are always emitted
even when empty, and `created_at` and `updated_at` are also always
emitted (their `omitempty` tags are ineffective on the struct type
`time.Time`). -/
theorem C1_omitempty_amended (w : Webhook) :
    (hasField (marshalWebhook w) "authentication" = true ↔ w.Authentication ≠ none) ∧
    (hasField (marshalWebhook w) "created_by" = true ↔ w.CreatedBy ≠ "") ∧
    (hasField (marshalWebhook w) "description" = true ↔ w.Description ≠ "") ∧
    (hasField (marshalWebhook w) "external_source" = true ↔ w.ExternalSource.isNull = false) ∧
    (hasField (marshalWebhook w) "id" = true ↔ w.ID ≠ "") ∧
    (hasField (marshalWebhook w) "signing_secret" = true ↔ w.SigningSecret ≠ none) ∧
    (hasField (marshalWebhook w) "subscriptions" = true ↔ w.Subscriptions ≠ []) ∧
    (hasField (marshalWebhook w) "updated_by" = true ↔ w.UpdatedBy ≠ "") ∧
    hasField (marshalWebhook w) "endpoint" = true ∧
    hasField (marshalWebhook w) "http_method" = true ∧
    hasField (marshalWebhook w) "name" = true ∧
    hasField (marshalWebhook w) "request_format" = true ∧
    hasField (marshalWebhook w) "status" = true ∧
    hasField (marshalWebhook w) "created_at" = true ∧
    hasField (marshalWebhook w) "updated_at" = true := by
  refine ⟨?_, ?_, ?_, ?_, ?_, ?_, ?_, ?_, ?_, ?_, ?_, ?_, ?_, ?_, ?_⟩ <;>
    simp [hasField, marshalWebhook, isSome_ite,
      lookup_marshal_authentication, lookup_marshal_created_at, lookup_marshal_created_by,
      lookup_marshal_description, lookup_marshal_endpoint, lookup_marshal_external_source,
      lookup_marshal_http_method, lookup_marshal_id, lookup_marshal_name,
      lookup_marshal_request_format, lookup_marshal_signing_secret, lookup_marshal_status,
      lookup_marshal_subscriptions, lookup_marshal_updated_at, lookup_marshal_updated_by,
      List.isEmpty_iff, Option.isSome_map, Option.isSome_iff_ne_none]

/-- Claim C2: encoding any Webhook value to JSON and decoding the result
back yields the original Webhook, field for field (absent fields decode
to the zero values they were encoded from, so equality holds on every
field, populated or not). -/
theorem C2_marshal_roundtrip (w : Webhook) :
    unmarshalWebhook (marshalWebhook w) = .ok w := by
  simp only [marshalWebhook, unmarshalWebhook,
    lookup_marshal_authentication, lookup_marshal_created_at, lookup_marshal_created_by,
    lookup_marshal_description, lookup_marshal_endpoint, lookup_marshal_external_source,
    lookup_marshal_http_method, lookup_marshal_id, lookup_marshal_name,
    lookup_marshal_request_format, lookup_marshal_signing_secret, lookup_marshal_status,
    lookup_marshal_subscriptions, lookup_marshal_updated_at, lookup_marshal_updated_by,
    unmarshalAuthField_map, unmarshalSecretField_map, unmarshalStringField_omit,
    unmarshalStringField_str, unmarshalTimeField_str, unmarshalIfaceField_omit,
    unmarshalSubsField_omit, except_bind_ok]

/-- Claim C3: calling ListWebhooks with an absent (nil) options argument
behaves identically to calling it with the empty options value — both
request the bare `/webhooks` URL with no query parameters and, for every
transport, return the same result. -/
theorem C3_nil_options_defaults_empty (z : Client) :
    listWebhooksURL none = "/webhooks" ∧
    listWebhooksURL (some emptyListOptions) = "/webhooks" ∧
    ListWebhooks z none = ListWebhooks z (some emptyListOptions) :=
  ⟨rfl, rfl, rfl⟩

/-- Claim C4: the query parameter list built from any WebhookListOptions
value contains a pair exactly for each non-empty option field, under the
documented parameter names, and no pair for an empty field. -/
theorem C4_query_params_exact (o : WebhookListOptions) (k v : String) :
    (k, v) ∈ encodeListOptions o ↔
      (k = "filter[name_contains]" ∧ v = o.FilterNameContains ∧ o.FilterNameContains ≠ "") ∨
      (k = "filter[status]" ∧ v = o.FilterStatus ∧ o.FilterStatus ≠ "") ∨
      (k = "page[after]" ∧ v = o.PageAfter ∧ o.PageAfter ≠ "") ∨
      (k = "page[before]" ∧ v = o.PageBefore ∧ o.PageBefore ≠ "") ∨
      (k = "page[size]" ∧ v = o.PageSize ∧ o.PageSize ≠ "") ∨
      (k = "sort" ∧ v = o.sort ∧ o.sort ≠ "") := by
  simp [encodeListOptions, List.mem_append, mem_omitParam]

/-- Claim C5: ListWebhooks fails with a transport error whenever the
underlying GET fails, fails with a decode error whenever the body is not
valid JSON or does not match the expected shape (a webhooks array plus
pagination fields), and otherwise returns the decoded webhooks and page
with no error. -/
theorem C5_list_error_cases (z : Client) (opts : Option WebhookListOptions) :
    (∀ e, z.get (listWebhooksURL opts) = .error e →
        ListWebhooks z opts = .error (.transport e)) ∧
    (z.get (listWebhooksURL opts) = .ok none →
        ListWebhooks z opts = .error (.decode jsonSyntaxError)) ∧
    (∀ j e, z.get (listWebhooksURL opts) = .ok (some j) →
        unmarshalListBody j = .error e →
        ListWebhooks z opts = .error (.decode e)) ∧
    (∀ j ws page, z.get (listWebhooksURL opts) = .ok (some j) →
        unmarshalListBody j = .ok (ws, page) →
        ListWebhooks z opts = .ok (ws, page)) := by
  refine ⟨?_, ?_, ?_, ?_⟩ <;> intros <;> simp [ListWebhooks, *]

/-- Claim C6: UpdateWebhook returns no error whenever the underlying PUT
succeeds, whatever the response body holds (the body is discarded), and
returns the transport error whenever the PUT fails. -/
theorem C6_update_ignores_body (z : Client) (webhookID : String) (hook : Webhook) :
    (∀ body, z.put ("/webhooks/" ++ webhookID) (wrapWebhook hook) = .ok body →
        UpdateWebhook z webhookID hook = .ok ()) ∧
    (∀ e, z.put ("/webhooks/" ++ webhookID) (wrapWebhook hook) = .error e →
        UpdateWebhook z webhookID hook = .error (.transport e)) := by
  refine ⟨?_, ?_⟩ <;> intros <;> simp [UpdateWebhook, *]

/-- Claim C7: when the GET for the signing secret URL returns the body
with a `signing_secret` object carrying algorithm sha256 and secret
abc123, GetWebhookSigningSecret returns that SigningSecret with no
error. -/
theorem C7_signing_secret_example (z : Client) (webhookID : String)
    (h : z.get ("/webhooks/" ++ webhookID ++ "/signing_secret") =
      .ok (some (.obj [("signing_secret",
        .obj [("algorithm", .str "sha256"), ("secret", .str "abc123")])]))) :
    GetWebhookSigningSecret z webhookID = .ok (some ⟨"sha256", "abc123"⟩) := by
  simp [GetWebhookSigningSecret, h, unmarshalSecretResult, unmarshalSecretField,
    getField, unmarshalStringField, except_bind_ok]

/-- Witness for claim C7 at a concrete transport returning the example
body. -/
theorem C7_signing_secret_example_witness :
    GetWebhookSigningSecret exampleSecretClient "wh1" =
      .ok (some ⟨"sha256", "abc123"⟩) :=
  C7_signing_secret_example exampleSecretClient "wh1" rfl

/-- Claim C8: CreateWebhook sends a POST to `/webhooks` whose JSON body is
exactly the given Webhook wrapped under a single `webhook` key — its
result depends on the transport only through that one request — and on
success it returns exactly the Webhook decoded from the `webhook` key of
the response body. -/
theorem C8_create_request_response (z z' : Client) (hook : Webhook)
    (h : z.post "/webhooks" (wrapWebhook hook) = z'.post "/webhooks" (wrapWebhook hook)) :
    (CreateWebhook z hook = CreateWebhook z' hook) ∧
    (∀ j ow, z.post "/webhooks" (wrapWebhook hook) = .ok (some j) →
        unmarshalWebhookResult j = .ok ow →
        CreateWebhook z hook = .ok ow) := by
  constructor
  · simp [CreateWebhook, h]
  · intros j ow h1 h2
    simp [CreateWebhook, h1, h2]

/-- Witness for claim C8 at a concrete transport whose response carries a
server-assigned record under the `webhook` key. -/
theorem C8_create_request_response_witness :
    CreateWebhook createReplyClient zeroWebhook = .ok (some createdReplyWebhook) :=
  (C8_create_request_response createReplyClient createReplyClient zeroWebhook rfl).2
    (.obj [("webhook", .obj [("id", Json.str "1")])]) (some createdReplyWebhook) rfl rfl

/-- Claim C9: neither CreateWebhook nor UpdateWebhook mutates the
caller-supplied webhook: in the state-passing translation that carries
the caller-owned value through the call, every branch returns it
unchanged while computing the same result as the direct translation. -/
theorem C9_hook_not_mutated (z : Client) (webhookID : String) (hook : Webhook) :
    ((CreateWebhookSt z hook).2 = hook) ∧
    ((CreateWebhookSt z hook).1 = CreateWebhook z hook) ∧
    ((UpdateWebhookSt z webhookID hook).2 = hook) ∧
    ((UpdateWebhookSt z webhookID hook).1 = UpdateWebhook z webhookID hook) := by
  refine ⟨?_, ?_, ?_, ?_⟩ <;>
  · cases hp : z.post "/webhooks" (wrapWebhook hook) <;>
    cases hq : z.put ("/webhooks/" ++ webhookID) (wrapWebhook hook) <;>
    simp [CreateWebhookSt, CreateWebhook, UpdateWebhookSt, UpdateWebhook, hp, hq] <;>
    rename_i b _ <;> cases b <;> simp <;>
    rename_i j <;> cases hr : unmarshalWebhookResult j <;> simp [hr]

/-- Claim C10: for every response body that is a valid JSON object
lacking the expected wrapper key, GetWebhook, CreateWebhook and
GetWebhookSigningSecret return a nil result together with a nil error,
not a decode error. -/
theorem C10_missing_wrapper_key (z : Client) (webhookID : String) (hook : Webhook)
    (fs gs : List (String × Json))
    (h1 : z.get ("/webhooks/" ++ webhookID) = .ok (some (.obj fs)))
    (h2 : z.post "/webhooks" (wrapWebhook hook) = .ok (some (.obj fs)))
    (h3 : z.get ("/webhooks/" ++ webhookID ++ "/signing_secret") = .ok (some (.obj gs)))
    (hw : getField fs "webhook" = none)
    (hs : getField gs "signing_secret" = none) :
    GetWebhook z webhookID = .ok none ∧
    CreateWebhook z hook = .ok none ∧
    GetWebhookSigningSecret z webhookID = .ok none := by
  refine ⟨?_, ?_, ?_⟩ <;>
    simp [GetWebhook, CreateWebhook, GetWebhookSigningSecret, h1, h2, h3,
      unmarshalWebhookResult, unmarshalSecretResult, unmarshalSecretField, hw, hs]

/-- Witness for claim C10 at a concrete transport answering every request
with the empty JSON object. -/
theorem C10_missing_wrapper_key_witness :
    GetWebhook emptyObjectClient "1" = .ok none ∧
    CreateWebhook emptyObjectClient zeroWebhook = .ok none ∧
    GetWebhookSigningSecret emptyObjectClient "1" = .ok none :=
  C10_missing_wrapper_key emptyObjectClient "1" zeroWebhook [] [] rfl rfl rfl rfl rfl
